import Mathlib

/-!
Verification of the core pipeline of the tlauncher-launcher repository:
detection (src/core/detector.py), configuration merge (src/core/config.py),
compose-command construction (src/core/composer.py), pre-flight validation
(src/core/validator.py) and container lifecycle supervision
(src/core/container.py).

Host-environment effects (PATH lookups, device nodes, environment
variables, subprocess invocations) are modelled by an explicit `World`
record of observation functions; every Python function is translated to a
pure Lean function over that record.  Callback invocations and issued
commands are modelled as an explicit event trace.
-/

set_option autoImplicit false

namespace TLauncher

/-- Outcome of `subprocess.run` invoked with a timeout: normal completion
(return code, captured stdout, captured stderr), a `TimeoutExpired`, or an
`OSError` such as `FileNotFoundError` when the executable is missing. -/
inductive TimedOutcome where
  | completed (returncode : Int) (stdout : String) (stderr : String)
  | timedOut
  | raised (msg : String)
deriving DecidableEq

/-- Outcome of launching a process without a timeout (`subprocess.Popen`
with merged stdout/stderr, or `subprocess.run` without `timeout=`): the
process runs to completion yielding its output lines and return code, or
the launch raises an exception such as `FileNotFoundError`. -/
inductive SpawnOutcome where
  | completed (returncode : Int) (lines : List String)
  | raised (msg : String)
deriving DecidableEq

/-- The host environment observed by the launcher: `shutil.which`,
`Path.exists`, `os.environ.get`, `Path.glob`, `os.getuid`, the directory
holding the compose files, and the outcomes of external process
invocations (with and without timeout). -/
structure World where
  which : String → Bool
  pathExists : String → Bool
  getenv : String → Option String
  glob : String → List String
  uid : Nat
  composeDir : String
  runTimed : List String → Nat → TimedOutcome
  spawn : List String → SpawnOutcome

/-- The effective configuration dict passed between the core components:
keys `runtime`, `gpu`, `display`, `audio` plus the `auto_xhost` flag. -/
structure Config where
  runtime : String
  gpu : String
  display : String
  audio : String
  auto_xhost : Bool
deriving DecidableEq

/-- The dict returned by `detect_system`: the four detected dimensions. -/
structure Detected where
  runtime : String
  gpu : String
  display : String
  audio : String
deriving DecidableEq

/-- A persisted-preferences dict as consumed by `merge_config`: any of the
four enum keys and the `auto_xhost` key may be absent. -/
structure SavedConfig where
  runtime : Option String
  gpu : Option String
  display : Option String
  audio : Option String
  auto_xhost : Option Bool
deriving DecidableEq

/-- Python truthiness of `os.environ.get(name)`: false when the variable
is absent or bound to the empty string. -/
def optStrTruthy : Option String → Bool
  | none => false
  | some s => s != ""

/-- Whether `pat` occurs at the start of `l` (helper for substring
containment). -/
def charListStartsWith : List Char → List Char → Bool
  | [], _ => true
  | _ :: _, [] => false
  | p :: ps, c :: cs => p == c && charListStartsWith ps cs

/-- Whether `pat` occurs contiguously anywhere in `l` (helper for the
Python `pat in s` substring test). -/
def charListContains (pat : List Char) : List Char → Bool
  | [] => pat.isEmpty
  | c :: cs => charListStartsWith pat (c :: cs) || charListContains pat cs

/-- Python `pat in s` substring containment. -/
def strContains (s pat : String) : Bool := charListContains pat.data s.data

/-- Python `str.rstrip()`: remove trailing whitespace. -/
def pyRstrip (s : String) : String :=
  ⟨(s.data.reverse.dropWhile Char.isWhitespace).reverse⟩

/-- Python `str.strip()`: remove leading and trailing whitespace. -/
def pyStrip (s : String) : String :=
  ⟨((s.data.dropWhile Char.isWhitespace).reverse.dropWhile Char.isWhitespace).reverse⟩

/-- Python `str.lower()`. -/
def pyLower (s : String) : String := ⟨s.data.map Char.toLower⟩

/-- `str(compose_dir / f)`: join the compose directory with a file name. -/
def joinPath (dir f : String) : String := dir ++ "/" ++ f

/-! ## src/core/composer.py -/

/-- `get_compose_files` from src/core/composer.py: the five compose file
names derived from the configuration, in fixed order. -/
def get_compose_files (config : Config) : List String :=
  ["compose.base.yaml",
   "compose." ++ config.runtime ++ ".yaml",
   "compose." ++ config.gpu ++ ".yaml",
   "compose." ++ config.display ++ ".yaml",
   "compose.audio-" ++ config.audio ++ ".yaml"]

/-- `build_compose_command` from src/core/composer.py.  The compose-file
directory (`get_compose_directory()` in the source, a fixed location on
the host) is taken from the world.  `extraArgs = []` plays the role of
the Python `extra_args=None` default (both are falsy). -/
def build_compose_command (composeDir : String) (config : Config)
    (action : String) (extraArgs : List String) : List String :=
  let files :=
    ["compose.base.yaml",
     "compose." ++ config.runtime ++ ".yaml",
     "compose." ++ config.gpu ++ ".yaml",
     "compose." ++ config.display ++ ".yaml",
     "compose.audio-" ++ config.audio ++ ".yaml"]
  let cmd := [config.runtime, "compose"]
  let cmd := cmd ++ files.foldl (fun acc f => acc ++ ["-f", joinPath composeDir f]) []
  let cmd := cmd ++ [action]
  if extraArgs != [] then cmd ++ extraArgs else cmd

/-- `validate_compose_files_exist` from src/core/composer.py: returns
`(all_exist, missing)`. -/
def validate_compose_files_exist (w : World) (config : Config) :
    Bool × List String :=
  let files := get_compose_files config
  let missing := files.filter (fun f => !(w.pathExists (joinPath w.composeDir f)))
  (missing.length == 0, missing)

/-! ## src/core/config.py -/

/-- One field of `merge_config`: `saved.get` with an empty-string default overrides the
detected value when it is truthy and strips to a truthy value. -/
def mergeField (detectedValue : String) (savedValue : Option String) : String :=
  let v := savedValue.getD ""
  if v != "" && pyStrip v != "" then v else detectedValue

/-- `merge_config` from src/core/config.py: start from `detected`,
override each of the four enum keys with a non-empty non-whitespace saved
value, and take `auto_xhost` from `saved` with default `True`. -/
def merge_config (detected : Detected) (saved : SavedConfig) : Config :=
  { runtime := mergeField detected.runtime saved.runtime
    gpu := mergeField detected.gpu saved.gpu
    display := mergeField detected.display saved.display
    audio := mergeField detected.audio saved.audio
    auto_xhost := saved.auto_xhost.getD true }

/-- A merged configuration viewed again as a persisted dict: every key is
present (as it is in the dict `merge_config` returns). -/
def configAsSaved (c : Config) : SavedConfig :=
  { runtime := some c.runtime
    gpu := some c.gpu
    display := some c.display
    audio := some c.audio
    auto_xhost := some c.auto_xhost }

/-! ## src/core/detector.py -/

/-- `detect_runtime` from src/core/detector.py: prefer podman, then
docker, defaulting to podman when neither is on the search path. -/
def detect_runtime (w : World) : String :=
  if w.which "podman" then "podman"
  else if w.which "docker" then "docker"
  else "podman"

/-- The `lspci` fallback of `detect_gpu`: scan the lower-cased output
for vendor keywords; a timed-out or missing `lspci` is swallowed and
yields no vote. -/
def lspci_gpu : TimedOutcome → Option String
  | TimedOutcome.completed _ out _ =>
    let output := pyLower out
    if strContains output "nvidia" || strContains output "geforce" ||
        strContains output "quadro" || strContains output "rtx" then some "nvidia"
    else if strContains output "amd" || strContains output "radeon" then some "amd"
    else if strContains output "intel" && strContains output "vga" then some "amd"
    else none
  | TimedOutcome.timedOut => none
  | TimedOutcome.raised _ => none

/-- `detect_gpu` from src/core/detector.py: NVIDIA device nodes first,
then DRI card nodes, then the `lspci` keyword scan, defaulting to amd. -/
def detect_gpu (w : World) : String :=
  if w.pathExists "/dev/nvidia0" || w.pathExists "/dev/nvidiactl" then "nvidia"
  else if w.pathExists "/dev/dri" && !(w.glob "/dev/dri/card*").isEmpty then "amd"
  else (lspci_gpu (w.runTimed ["lspci"] 2)).getD "amd"

/-- `detect_display` from src/core/detector.py: a recognized
`XDG_SESSION_TYPE` wins, else whichever protocol-specific variable is
set, defaulting to x11. -/
def detect_display (w : World) : String :=
  let session_type := pyLower ((w.getenv "XDG_SESSION_TYPE").getD "")
  if session_type == "x11" || session_type == "wayland" then session_type
  else if optStrTruthy (w.getenv "WAYLAND_DISPLAY") then "wayland"
  else if optStrTruthy (w.getenv "DISPLAY") then "x11"
  else "x11"

/-- `detect_audio` from src/core/detector.py: the per-user pulse socket,
else a `pactl info` probe, defaulting to none. -/
def detect_audio (w : World) : String :=
  if w.pathExists ("/run/user/" ++ toString w.uid ++ "/pulse/native") then "pulseaudio"
  else
    match w.runTimed ["pactl", "info"] 2 with
    | TimedOutcome.completed rc out _ =>
      if rc == 0 && strContains out "Server Name:" then "pulseaudio" else "none"
    | TimedOutcome.timedOut => "none"
    | TimedOutcome.raised _ => "none"

/-- `detect_system` from src/core/detector.py. -/
def detect_system (w : World) : Detected :=
  { runtime := detect_runtime w
    gpu := detect_gpu w
    display := detect_display w
    audio := detect_audio w }

/-! ## src/core/validator.py -/

/-- `ValidationIssue` from src/core/validator.py. -/
structure ValidationIssue where
  message : String
  level : String
  fix_hint : Option String
deriving DecidableEq

/-- `ValidationIssue.is_blocking`: an issue blocks startup when its level
is the error level. -/
def ValidationIssue.is_blocking (i : ValidationIssue) : Bool :=
  i.level == "error"

/-- `_check_runtime` from src/core/validator.py: missing executable or a
failing `--version` run is blocking; a timeout or other error while
probing is advisory. -/
def _check_runtime (w : World) (config : Config) : List ValidationIssue :=
  let runtime := config.runtime
  if !w.which runtime then
    [{ message := runtime ++ " is not installed or not in PATH"
       level := "error"
       fix_hint := some ("Install " ++ runtime ++ ": https://" ++ runtime ++ ".io/getting-started/installation") }]
  else
    match w.runTimed [runtime, "--version"] 5 with
    | TimedOutcome.completed rc _ _ =>
      if rc != 0 then
        [{ message := runtime ++ " is installed but not working properly"
           level := "error"
           fix_hint := some ("Try running " ++ runtime ++ " --version manually to see the error") }]
      else []
    | TimedOutcome.timedOut =>
      [{ message := runtime ++ " command timed out", level := "warning", fix_hint := none }]
    | TimedOutcome.raised e =>
      [{ message := "Error checking " ++ runtime ++ ": " ++ e, level := "warning", fix_hint := none }]

/-- `_check_gpu` from src/core/validator.py: for nvidia a missing
`/dev/nvidia0` is blocking and a missing `/dev/nvidiactl` advisory; for
amd a missing `/dev/dri` is advisory only. -/
def _check_gpu (w : World) (config : Config) : List ValidationIssue :=
  if config.gpu == "nvidia" then
    (if !w.pathExists "/dev/nvidia0" then
      [{ message := "NVIDIA GPU selected but /dev/nvidia0 not found"
         level := "error"
         fix_hint := some "Install NVIDIA drivers or select amd GPU type" }]
    else []) ++
    (if !w.pathExists "/dev/nvidiactl" then
      [{ message := "/dev/nvidiactl device not found"
         level := "warning"
         fix_hint := some "NVIDIA drivers may not be properly installed" }]
    else [])
  else if config.gpu == "amd" then
    if !w.pathExists "/dev/dri" then
      [{ message := "/dev/dri not found - no GPU acceleration available"
         level := "warning"
         fix_hint := some "Install Mesa drivers for GPU acceleration" }]
    else []
  else []

/-- `_check_display` from src/core/validator.py: for x11 an unset
`DISPLAY` is blocking and a missing socket directory advisory; for
wayland an unset `WAYLAND_DISPLAY` is advisory. -/
def _check_display (w : World) (config : Config) : List ValidationIssue :=
  if config.display == "x11" then
    (if !optStrTruthy (w.getenv "DISPLAY") then
      [{ message := "X11 selected but DISPLAY environment variable not set"
         level := "error"
         fix_hint := some "Ensure you are running in an X11 session" }]
    else []) ++
    (if !w.pathExists "/tmp/.X11-unix" then
      [{ message := "X11 socket directory /tmp/.X11-unix not found"
         level := "warning"
         fix_hint := none }]
    else [])
  else if config.display == "wayland" then
    if !optStrTruthy (w.getenv "WAYLAND_DISPLAY") then
      [{ message := "Wayland selected but WAYLAND_DISPLAY not set"
         level := "warning"
         fix_hint := some "Ensure you are running in a Wayland session" }]
    else []
  else []

/-- `_check_audio` from src/core/validator.py: advisory findings only. -/
def _check_audio (w : World) (config : Config) : List ValidationIssue :=
  if config.audio == "pulseaudio" then
    let pulse_socket := "/run/user/" ++ toString w.uid ++ "/pulse/native"
    (if !w.pathExists pulse_socket then
      [{ message := "PulseAudio socket not found at " ++ pulse_socket
         level := "warning"
         fix_hint := some "Audio may not work. Start PulseAudio/PipeWire or select none for audio" }]
    else []) ++
    (if !w.pathExists "/dev/snd" then
      [{ message := "/dev/snd not found - ALSA devices unavailable"
         level := "warning"
         fix_hint := some "Audio hardware may not be accessible" }]
    else [])
  else []

/-- `_check_compose_files` from src/core/validator.py: one blocking
issue per missing compose file. -/
def _check_compose_files (w : World) (config : Config) : List ValidationIssue :=
  let res := validate_compose_files_exist w config
  if !res.1 then
    res.2.map (fun f =>
      { message := "Compose file not found: " ++ joinPath w.composeDir f
        level := "error"
        fix_hint := some ("Ensure " ++ f ++ " exists in " ++ w.composeDir) })
  else []

/-- `_check_xhost` from src/core/validator.py: advisory findings only;
every probe failure is swallowed. -/
def _check_xhost (w : World) (config : Config) : List ValidationIssue :=
  if config.display == "x11" && config.auto_xhost then
    if !w.which "xhost" then
      [{ message := "xhost command not found"
         level := "warning"
         fix_hint := some "Install xhost or manually allow X11 access" }]
    else
      match w.runTimed ["xhost"] 2 with
      | TimedOutcome.completed rc out _ =>
        if rc == 0 && !strContains out "SI:localuser:" then
          [{ message := "X11 access may need to be granted"
             level := "warning"
             fix_hint := some "Will attempt to run: xhost +SI:localuser:$USER" }]
        else []
      | TimedOutcome.timedOut => []
      | TimedOutcome.raised _ => []
  else []

/-- `validate_system` from src/core/validator.py: run the six checks in
order; the configuration is valid iff no collected issue is blocking. -/
def validate_system (w : World) (config : Config) :
    Bool × List ValidationIssue :=
  let issues :=
    _check_runtime w config ++ _check_gpu w config ++ _check_display w config ++
    _check_audio w config ++ _check_compose_files w config ++ _check_xhost w config
  let has_errors := issues.any (fun i => i.is_blocking)
  (!has_errors, issues)

/-! ## src/core/container.py -/

/-- An observable effect of a lifecycle operation: a line delivered to
`output_callback`, an invocation of `started_callback`, or an external
command issued with its timeout (in seconds) when one was given. -/
inductive Event where
  | outputLine (s : String)
  | ready
  | ran (cmd : List String) (timeoutSec : Option Nat)
deriving DecidableEq

/-- Whether an event is a delivery to `output_callback`. -/
def Event.isOutput : Event → Bool
  | Event.outputLine _ => true
  | _ => false

/-- Whether an event is an invocation of `started_callback`. -/
def Event.isReady : Event → Bool
  | Event.ready => true
  | _ => false

/-- The mutable state of a `ContainerManager` instance that the claims
observe: its configuration and the `_stop_requested` flag. -/
structure CMState where
  config : Config
  stopRequested : Bool
deriving DecidableEq

/-- Result of a lifecycle operation: the boolean outcome, the trace of
observable effects in order, and the resulting instance state. -/
structure OpResult where
  ok : Bool
  trace : List Event
  state : CMState
deriving DecidableEq

/-- Result of `ContainerManager.logs`: the yielded lines, the trace, and
the (unchanged) instance state. -/
structure LogsOut where
  lines : List String
  trace : List Event
  state : CMState
deriving DecidableEq

/-- Result of `ContainerManager.status`. -/
structure StatusOut where
  running : Bool
  info : String
  trace : List Event
  state : CMState
deriving DecidableEq

/-- The `_STARTED_PATTERNS` readiness test: whether a stripped output
line contains one of the fixed readiness markers. -/
def matchesStartedPattern (s : String) : Bool :=
  strContains s "[Loading] SUCCESS" || strContains s "Started!"

/-- The output-streaming loop of `ContainerManager.start` (entered only
when `output_callback` is provided): each non-empty line is rstripped and
delivered; the first marker line additionally fires `started_callback`
once (when provided); after each line the `_stop_requested` flag is
consulted and the loop breaks when it is set. -/
def streamLoop (hasStartedCb stopRequested : Bool) :
    Bool → List String → List Event
  | _, [] => []
  | signaled, line :: rest =>
    if line != "" then
      let stripped := pyRstrip line
      let fires := hasStartedCb && !signaled && matchesStartedPattern stripped
      let evs := Event.outputLine stripped :: (if fires then [Event.ready] else [])
      if stopRequested then evs
      else evs ++ streamLoop hasStartedCb stopRequested (signaled || fires) rest
    else
      if stopRequested then []
      else streamLoop hasStartedCb stopRequested signaled rest

/-- The compose `up` command built at the top of `ContainerManager.start`
from the detached and force-recreate flags. -/
def startCmd (w : World) (st : CMState) (detached forceRecreate : Bool) : List String :=
  build_compose_command w.composeDir st.config "up"
    ((if detached then ["-d"] else []) ++ (if forceRecreate then ["--force-recreate"] else []))

/-- `ContainerManager.start` from src/core/container.py.  In detached
mode the command is run to completion with no callback deliveries; in
foreground mode output is streamed through `streamLoop` and the call
returns whether the exit code was zero.  A launch exception is reported
through `output_callback` (when provided) and yields false. -/
def ContainerManager.start (w : World) (st : CMState)
    (detached forceRecreate hasOutputCb hasStartedCb : Bool) : OpResult :=
  let cmd := startCmd w st detached forceRecreate
  if detached then
    match w.spawn cmd with
    | SpawnOutcome.completed rc _ =>
      { ok := rc == 0, trace := [Event.ran cmd none], state := st }
    | SpawnOutcome.raised msg =>
      { ok := false
        trace := Event.ran cmd none ::
          (if hasOutputCb then [Event.outputLine ("Error starting container: " ++ msg)] else [])
        state := st }
  else
    match w.spawn cmd with
    | SpawnOutcome.completed rc lines =>
      { ok := rc == 0
        trace := Event.ran cmd none ::
          (if hasOutputCb then streamLoop hasStartedCb st.stopRequested false lines else [])
        state := st }
    | SpawnOutcome.raised msg =>
      { ok := false
        trace := Event.ran cmd none ::
          (if hasOutputCb then [Event.outputLine ("Error starting container: " ++ msg)] else [])
        state := st }

/-- `ContainerManager.stop` from src/core/container.py: set
`_stop_requested`, run `compose stop -t N` bounded by `N + 15` seconds,
then `compose down` bounded by 15 seconds; true only when the down step
completes with exit code zero, any timeout or exception yielding false. -/
def ContainerManager.stop (w : World) (st : CMState) (stopTimeout : Nat) : OpResult :=
  let st' : CMState := { st with stopRequested := true }
  let stop_cmd := build_compose_command w.composeDir st.config "stop" ["-t", toString stopTimeout]
  match w.runTimed stop_cmd (stopTimeout + 15) with
  | TimedOutcome.completed _ _ _ =>
    let down_cmd := build_compose_command w.composeDir st.config "down" []
    match w.runTimed down_cmd 15 with
    | TimedOutcome.completed rc _ _ =>
      { ok := rc == 0
        trace := [Event.ran stop_cmd (some (stopTimeout + 15)), Event.ran down_cmd (some 15)]
        state := st' }
    | TimedOutcome.timedOut =>
      { ok := false
        trace := [Event.ran stop_cmd (some (stopTimeout + 15)), Event.ran down_cmd (some 15)]
        state := st' }
    | TimedOutcome.raised _ =>
      { ok := false
        trace := [Event.ran stop_cmd (some (stopTimeout + 15)), Event.ran down_cmd (some 15)]
        state := st' }
  | TimedOutcome.timedOut =>
    { ok := false, trace := [Event.ran stop_cmd (some (stopTimeout + 15))], state := st' }
  | TimedOutcome.raised _ =>
    { ok := false, trace := [Event.ran stop_cmd (some (stopTimeout + 15))], state := st' }

/-- `ContainerManager.restart` from src/core/container.py: announce, stop
with the default grace period of 5, fail fast with a distinct message
when stop fails, else announce and start in foreground with only the
output callback. -/
def ContainerManager.restart (w : World) (st : CMState) (hasOutputCb : Bool) : OpResult :=
  let pre := if hasOutputCb then [Event.outputLine "Stopping container..."] else []
  let s := ContainerManager.stop w st 5
  if !s.ok then
    { ok := false
      trace := pre ++ s.trace ++
        (if hasOutputCb then [Event.outputLine "Failed to stop container"] else [])
      state := s.state }
  else
    let r := ContainerManager.start w s.state false false hasOutputCb false
    { ok := r.ok
      trace := pre ++ s.trace ++
        (if hasOutputCb then [Event.outputLine "Starting container..."] else []) ++ r.trace
      state := r.state }

/-- Python truthiness of the `tail` argument of `ContainerManager.logs`:
`None` and `0` are both falsy. -/
def optIntTruthy : Option Int → Bool
  | none => false
  | some n => n != 0

/-- `ContainerManager.logs` from src/core/container.py: build the logs
command with optional `-f` and `--tail` arguments, yield the rstripped
non-empty output lines, and surface a read failure as a single synthetic
error line. -/
def ContainerManager.logs (w : World) (st : CMState)
    (follow : Bool) (tail : Option Int) : LogsOut :=
  let extra := (if follow then ["-f"] else []) ++
    (if optIntTruthy tail then ["--tail", toString (tail.getD 0)] else [])
  let cmd := build_compose_command w.composeDir st.config "logs" extra
  match w.spawn cmd with
  | SpawnOutcome.completed _ lines =>
    { lines := (lines.filter (fun l => l != "")).map pyRstrip
      trace := [Event.ran cmd none]
      state := st }
  | SpawnOutcome.raised msg =>
    { lines := ["Error reading logs: " ++ msg]
      trace := [Event.ran cmd none]
      state := st }

/-- `ContainerManager.status` from src/core/container.py: a `ps` query
bounded by 10 seconds; running iff the query succeeded and its trimmed
output mentions the workload name. -/
def ContainerManager.status (w : World) (st : CMState) : StatusOut :=
  let cmd := build_compose_command w.composeDir st.config "ps" ["--format", "json"]
  match w.runTimed cmd 10 with
  | TimedOutcome.completed rc out err =>
    if rc == 0 then
      let output := pyStrip out
      { running := output != "" && strContains (pyLower output) "tlauncher"
        info := output, trace := [Event.ran cmd (some 10)], state := st }
    else
      { running := false, info := err, trace := [Event.ran cmd (some 10)], state := st }
  | TimedOutcome.timedOut =>
    { running := false, info := "Status check timed out"
      trace := [Event.ran cmd (some 10)], state := st }
  | TimedOutcome.raised msg =>
    { running := false, info := msg, trace := [Event.ran cmd (some 10)], state := st }

/-! ## Helper lemmas -/

/-- Overriding a field with its own merge result is a fixed point. -/
lemma mergeField_idem (dv : String) (sv : Option String) :
    mergeField dv (some (mergeField dv sv)) = mergeField dv sv := by
  by_cases h : ((sv.getD "") != "" && pyStrip (sv.getD "") != "") = true
  · have hv : mergeField dv sv = sv.getD "" := by simp [mergeField, h]
    rw [hv]
    simp [mergeField, h]
  · have hv : mergeField dv sv = dv := by simp [mergeField, h]
    rw [hv]
    simp [mergeField]

/-- The lspci keyword scan only ever votes nvidia or amd, or abstains. -/
lemma lspci_gpu_mem (o : TimedOutcome) :
    lspci_gpu o = some "nvidia" ∨ lspci_gpu o = some "amd" ∨ lspci_gpu o = none := by
  cases o with
  | completed rc out err =>
    simp only [lspci_gpu]
    split
    · exact Or.inl rfl
    split
    · exact Or.inr (Or.inl rfl)
    split
    · exact Or.inr (Or.inl rfl)
    · exact Or.inr (Or.inr rfl)
  | timedOut => exact Or.inr (Or.inr rfl)
  | raised msg => exact Or.inr (Or.inr rfl)

/-- A truthy, non-whitespace saved value always wins the merge. -/
lemma mergeField_override (dv v : String) (h1 : v ≠ "") (h2 : pyStrip v ≠ "") :
    mergeField dv (some v) = v := by
  simp [mergeField, h1, h2]

/-! ## Claims -/

/-- C4: `get_compose_files` returns exactly 5 file names in the fixed
order base, runtime, gpu, display, audio, and `build_compose_command`
places the runtime executable and the compose token first, then the five
`-f file` pairs in that order, then the action immediately after the 5th
pair, then every extra argument after the action. -/
theorem compose_files_and_command_shape (c : Config) (dir action : String)
    (extra : List String) :
    (get_compose_files c).length = 5
    ∧ get_compose_files c =
        ["compose.base.yaml",
         "compose." ++ c.runtime ++ ".yaml",
         "compose." ++ c.gpu ++ ".yaml",
         "compose." ++ c.display ++ ".yaml",
         "compose.audio-" ++ c.audio ++ ".yaml"]
    ∧ build_compose_command dir c action extra =
        [c.runtime, "compose",
         "-f", joinPath dir "compose.base.yaml",
         "-f", joinPath dir ("compose." ++ c.runtime ++ ".yaml"),
         "-f", joinPath dir ("compose." ++ c.gpu ++ ".yaml"),
         "-f", joinPath dir ("compose." ++ c.display ++ ".yaml"),
         "-f", joinPath dir ("compose.audio-" ++ c.audio ++ ".yaml"),
         action] ++ extra := by
  refine ⟨rfl, rfl, ?_⟩
  rcases eq_or_ne extra [] with h | h <;>
    simp [build_compose_command, h]

/-- C5: `merge_config` is idempotent under re-merge with its own output
as the persisted side, and a non-empty, non-whitespace persisted value
always overrides the detected value for each of the four enum fields. -/
theorem merge_idempotent_and_precedence :
    (∀ d s, merge_config d (configAsSaved (merge_config d s)) = merge_config d s)
    ∧ (∀ d s v, s.runtime = some v → v ≠ "" → pyStrip v ≠ "" →
        (merge_config d s).runtime = v)
    ∧ (∀ d s v, s.gpu = some v → v ≠ "" → pyStrip v ≠ "" →
        (merge_config d s).gpu = v)
    ∧ (∀ d s v, s.display = some v → v ≠ "" → pyStrip v ≠ "" →
        (merge_config d s).display = v)
    ∧ (∀ d s v, s.audio = some v → v ≠ "" → pyStrip v ≠ "" →
        (merge_config d s).audio = v) := by
  refine ⟨fun d s => ?_, fun d s v h h1 h2 => ?_, fun d s v h h1 h2 => ?_,
    fun d s v h h1 h2 => ?_, fun d s v h h1 h2 => ?_⟩
  · simp [merge_config, configAsSaved, mergeField_idem]
  all_goals simp [merge_config, h, mergeField_override _ v h1 h2]

/-- Detected configuration used as a concrete witness input. -/
def d0 : Detected :=
  { runtime := "docker", gpu := "amd", display := "x11", audio := "none" }

/-- Persisted configuration carrying only a runtime override. -/
def s0 : SavedConfig :=
  { runtime := some "podman", gpu := none, display := none, audio := none
    auto_xhost := none }

/-- Witness for C5: the concrete override `{runtime: podman}` beats a
detected `docker`. -/
theorem merge_idempotent_and_precedence_witness :
    (s0.runtime = some "podman" ∧ "podman" ≠ "" ∧ pyStrip "podman" ≠ "")
    ∧ (merge_config d0 s0).runtime = "podman" :=
  ⟨⟨rfl, by decide, by decide⟩,
    merge_idempotent_and_precedence.2.1 d0 s0 "podman" rfl (by decide) (by decide)⟩

/-- C10: a `tail` count of 0 is falsy, so the `--tail` argument is
omitted and `logs` behaves exactly as if no tail count had been passed. -/
theorem logs_zero_tail_same_as_none (w : World) (st : CMState) (follow : Bool) :
    ContainerManager.logs w st follow (some 0) =
      ContainerManager.logs w st follow none := rfl

/-- C6: each of the four detection probes is total and returns a value
of its two-element enum for every world, including one where every
signal is absent and every diagnostic command fails or times out. -/
theorem detect_probes_total_in_enum (w : World) :
    (detect_runtime w = "podman" ∨ detect_runtime w = "docker")
    ∧ (detect_gpu w = "nvidia" ∨ detect_gpu w = "amd")
    ∧ (detect_display w = "x11" ∨ detect_display w = "wayland")
    ∧ (detect_audio w = "pulseaudio" ∨ detect_audio w = "none") := by
  refine ⟨?_, ?_, ?_, ?_⟩
  · unfold detect_runtime
    split
    · exact Or.inl rfl
    split
    · exact Or.inr rfl
    · exact Or.inl rfl
  · unfold detect_gpu
    split
    · exact Or.inl rfl
    split
    · exact Or.inr rfl
    · rcases lspci_gpu_mem (w.runTimed ["lspci"] 2) with h | h | h <;> simp [h]
  · by_cases h1 : (pyLower ((w.getenv "XDG_SESSION_TYPE").getD "") == "x11" ||
        pyLower ((w.getenv "XDG_SESSION_TYPE").getD "") == "wayland") = true
    · have h2 := h1
      simp only [Bool.or_eq_true, beq_iff_eq] at h2
      simpa [detect_display, h1] using h2
    · by_cases h2 : optStrTruthy (w.getenv "WAYLAND_DISPLAY") = true <;>
        by_cases h3 : optStrTruthy (w.getenv "DISPLAY") = true <;>
        simp [detect_display, h1, h2, h3]
  · unfold detect_audio
    split
    · exact Or.inl rfl
    · rcases h : w.runTimed ["pactl", "info"] 2 with ⟨rc, out, err⟩ | _ | msg
      · simp only [h]
        split
        · exact Or.inl rfl
        · exact Or.inr rfl
      · simp [h]
      · simp [h]

/-! ## Lifecycle helper lemmas -/

/-- Once the readiness signal has fired, the stream loop never emits a
second one. -/
lemma streamLoop_ready_count_signaled (hcb stopR : Bool) (lines : List String) :
    List.countP Event.isReady (streamLoop hcb stopR true lines) = 0 := by
  induction lines with
  | nil => simp [streamLoop]
  | cons line rest ih =>
    by_cases h : (line != "") = true <;> cases stopR <;>
      simp [streamLoop, h, List.countP_cons, List.countP_append, Event.isReady, ih]

/-- The stream loop fires the readiness signal at most once. -/
lemma streamLoop_ready_count_le_one (hcb stopR sig : Bool) (lines : List String) :
    List.countP Event.isReady (streamLoop hcb stopR sig lines) ≤ 1 := by
  induction lines generalizing sig with
  | nil => simp [streamLoop]
  | cons line rest ih =>
    by_cases h : (line != "") = true
    · by_cases hf : (hcb && !sig && matchesStartedPattern (pyRstrip line)) = true
      · by_cases hs : stopR = true
        · simp [streamLoop, h, hf, hs, List.countP_cons, Event.isReady]
        · have hsig : (sig || true) = true := by simp
          simp [streamLoop, h, hf, hs, List.countP_cons, List.countP_append,
            Event.isReady, streamLoop_ready_count_signaled]
      · by_cases hs : stopR = true
        · simp [streamLoop, h, hf, hs, List.countP_cons, Event.isReady]
        · simpa [streamLoop, h, hf, hs, List.countP_cons, List.countP_append,
            Event.isReady] using ih sig
    · by_cases hs : stopR = true
      · simp [streamLoop, h, hs]
      · simpa [streamLoop, h, hs] using ih sig

/-- With the stop-requested flag set, the stream loop delivers at most
one line before breaking. -/
lemma streamLoop_stopRequested_output_le_one (hcb sig : Bool) (lines : List String) :
    List.countP Event.isOutput (streamLoop hcb true sig lines) ≤ 1 := by
  cases lines with
  | nil => simp [streamLoop]
  | cons line rest =>
    by_cases h : (line != "") = true
    · by_cases hf : (hcb && !sig && matchesStartedPattern (pyRstrip line)) = true <;>
        simp [streamLoop, h, hf, List.countP_cons, Event.isOutput]
    · simp [streamLoop, h]

/-- The trace of `stop` is either the stop command alone (when it timed
out or raised) or the stop command followed by the down command; each
phase is issued at most once and never retried. -/
lemma stop_trace_shape (w : World) (st : CMState) (t : Nat) :
    (ContainerManager.stop w st t).trace =
      [Event.ran (build_compose_command w.composeDir st.config "stop" ["-t", toString t])
        (some (t + 15))] ∨
    (ContainerManager.stop w st t).trace =
      [Event.ran (build_compose_command w.composeDir st.config "stop" ["-t", toString t])
        (some (t + 15)),
       Event.ran (build_compose_command w.composeDir st.config "down" []) (some 15)] := by
  unfold ContainerManager.stop
  rcases h1 : w.runTimed (build_compose_command w.composeDir st.config "stop"
      ["-t", toString t]) (t + 15) with ⟨rc1, o1, e1⟩ | _ | m1
  · rcases h2 : w.runTimed (build_compose_command w.composeDir st.config "down" []) 15 with
      ⟨rc2, o2, e2⟩ | _ | m2 <;> simp [h1, h2]
  · simp [h1]
  · simp [h1]

/-- No line is ever delivered to `output_callback` from inside `stop`. -/
lemma stop_trace_no_output (w : World) (st : CMState) (t : Nat) (s : String) :
    Event.outputLine s ∉ (ContainerManager.stop w st t).trace := by
  rcases stop_trace_shape w st t with h | h <;> simp [h]

/-- `stop` leaves the stop-requested flag set. -/
lemma stop_state_flag (w : World) (st : CMState) (t : Nat) :
    (ContainerManager.stop w st t).state = { st with stopRequested := true } := by
  unfold ContainerManager.stop
  rcases h1 : w.runTimed (build_compose_command w.composeDir st.config "stop"
      ["-t", toString t]) (t + 15) with ⟨rc1, o1, e1⟩ | _ | m1
  · rcases h2 : w.runTimed (build_compose_command w.composeDir st.config "down" []) 15 with
      ⟨rc2, o2, e2⟩ | _ | m2 <;> simp [h1, h2]
  · simp [h1]
  · simp [h1]

/-- `start` never touches the instance state. -/
lemma start_state_eq (w : World) (st : CMState) (detached fR hcb hscb : Bool) :
    (ContainerManager.start w st detached fR hcb hscb).state = st := by
  cases detached with
  | false =>
    unfold ContainerManager.start
    rcases h : w.spawn (startCmd w st false fR) with ⟨rc, lines⟩ | m <;> simp [h]
  | true =>
    unfold ContainerManager.start
    rcases h : w.spawn (startCmd w st true fR) with ⟨rc, lines⟩ | m <;> simp [h]

/-- `logs` never touches the instance state. -/
lemma logs_state_eq (w : World) (st : CMState) (follow : Bool) (tail : Option Int) :
    (ContainerManager.logs w st follow tail).state = st := by
  unfold ContainerManager.logs
  rcases h : w.spawn (build_compose_command w.composeDir st.config "logs"
      ((if follow then ["-f"] else []) ++
        (if optIntTruthy tail then ["--tail", toString (tail.getD 0)] else []))) with
    ⟨rc, lines⟩ | msg <;> simp [h]

/-- `status` never touches the instance state. -/
lemma status_state_eq (w : World) (st : CMState) :
    (ContainerManager.status w st).state = st := by
  unfold ContainerManager.status
  rcases h : w.runTimed (build_compose_command w.composeDir st.config "ps"
      ["--format", "json"]) 10 with ⟨rc, out, err⟩ | _ | m <;> simp [h]
  split <;> simp

/-! ## Concrete worlds and instances used as witness inputs -/

/-- A host on which every probe fails: nothing on the search path, no
device nodes, no environment variables, every timed command times out
and every launch raises. -/
def wDead : World :=
  { which := fun _ => false
    pathExists := fun _ => false
    getenv := fun _ => none
    glob := fun _ => []
    uid := 1000
    composeDir := "/opt/launcher"
    runTimed := fun _ _ => TimedOutcome.timedOut
    spawn := fun _ => SpawnOutcome.raised "No such file or directory" }

/-- A fully healthy host: everything resolvable, every timed command
succeeds, and a foreground launch prints a readiness marker. -/
def wUp : World :=
  { which := fun _ => true
    pathExists := fun _ => true
    getenv := fun _ => some ":0"
    glob := fun _ => ["/dev/dri/card0"]
    uid := 1000
    composeDir := "/opt/launcher"
    runTimed := fun _ _ => TimedOutcome.completed 0 "" ""
    spawn := fun _ => SpawnOutcome.completed 0 ["[Loading] SUCCESS", "Started!"] }

/-- A concrete effective configuration. -/
def cfg0 : Config :=
  { runtime := "podman", gpu := "amd", display := "x11", audio := "pulseaudio"
    auto_xhost := true }

/-- A fresh `ContainerManager` state for `cfg0`. -/
def st0 : CMState := { config := cfg0, stopRequested := false }

/-- A `ContainerManager` state for `cfg0` after a stop request. -/
def stR : CMState := { config := cfg0, stopRequested := true }

/-! ## Lifecycle claims -/

/-- C3: `stop` runs the two-phase protocol — a stop command bounded by
`gracePeriod + 15` seconds, then a down command bounded by 15 seconds —
and returns true iff the down step completes with exit code zero; its
trace shows each phase issued at most once, the down phase only when the
stop phase completed, and the exit code of the stop phase plays no role. -/
theorem stop_two_phase_spec (w : World) (st : CMState) (t : Nat) :
    ((ContainerManager.stop w st t).ok = true ↔
      ((∃ rc out err,
          w.runTimed (build_compose_command w.composeDir st.config "stop" ["-t", toString t])
            (t + 15) = TimedOutcome.completed rc out err)
        ∧ (∃ out err,
            w.runTimed (build_compose_command w.composeDir st.config "down" []) 15 =
              TimedOutcome.completed 0 out err)))
    ∧ ((ContainerManager.stop w st t).trace =
        [Event.ran (build_compose_command w.composeDir st.config "stop" ["-t", toString t])
          (some (t + 15))] ∨
       (ContainerManager.stop w st t).trace =
        [Event.ran (build_compose_command w.composeDir st.config "stop" ["-t", toString t])
          (some (t + 15)),
         Event.ran (build_compose_command w.composeDir st.config "down" []) (some 15)]) := by
  refine ⟨?_, stop_trace_shape w st t⟩
  unfold ContainerManager.stop
  rcases h1 : w.runTimed (build_compose_command w.composeDir st.config "stop"
      ["-t", toString t]) (t + 15) with ⟨rc1, o1, e1⟩ | _ | m1
  · rcases h2 : w.runTimed (build_compose_command w.composeDir st.config "down" []) 15 with
      ⟨rc2, o2, e2⟩ | _ | m2 <;> simp [h1, h2]
  · simp [h1]
  · simp [h1]

/-- C7: `restart` is sequential stop-then-start; when stop fails it
returns false immediately, issues no command of start, reports the
distinct failure line through `onOutputLine` last, and never emits the
start announcement. -/
theorem restart_stop_failure_short_circuits (w : World) (st : CMState)
    (h : (ContainerManager.stop w st 5).ok = false) :
    (ContainerManager.restart w st true).ok = false
    ∧ (ContainerManager.restart w st true).trace =
        Event.outputLine "Stopping container..." ::
          ((ContainerManager.stop w st 5).trace ++
            [Event.outputLine "Failed to stop container"])
    ∧ (∀ c tmo, Event.ran c tmo ∈ (ContainerManager.restart w st true).trace →
        Event.ran c tmo ∈ (ContainerManager.stop w st 5).trace)
    ∧ Event.outputLine "Starting container..." ∉
        (ContainerManager.restart w st true).trace := by
  have htr : (ContainerManager.restart w st true).trace =
      Event.outputLine "Stopping container..." ::
        ((ContainerManager.stop w st 5).trace ++
          [Event.outputLine "Failed to stop container"]) := by
    simp [ContainerManager.restart, h]
  refine ⟨by simp [ContainerManager.restart, h], htr, ?_, ?_⟩
  · intro c tmo hc
    rw [htr] at hc
    simpa using hc
  · rw [htr]
    simpa using stop_trace_no_output w st 5 "Starting container..."

/-- Witness for C7 on a dead host where the stop phase times out. -/
theorem restart_stop_failure_short_circuits_witness :
    (ContainerManager.stop wDead st0 5).ok = false
    ∧ (ContainerManager.restart wDead st0 true).ok = false :=
  ⟨rfl, (restart_stop_failure_short_circuits wDead st0 rfl).1⟩

/-- C8: a foreground `start` without `output_callback` skips the
streaming loop entirely — no line delivery and no readiness signal even
when `started_callback` is provided and the output contains readiness
markers — while still waiting for the process and returning whether its
exit code was zero. -/
theorem start_without_output_cb_skips_streaming (w : World) (st : CMState)
    (fR hscb : Bool) (rc : Int) (lines : List String)
    (h : w.spawn (startCmd w st false fR) = SpawnOutcome.completed rc lines) :
    (ContainerManager.start w st false fR false hscb).ok = (rc == 0)
    ∧ (ContainerManager.start w st false fR false hscb).trace =
        [Event.ran (startCmd w st false fR) none] := by
  unfold ContainerManager.start
  simp [h]

/-- Witness for C8: a healthy foreground start whose output contains
both readiness markers, run without an output callback. -/
theorem start_without_output_cb_skips_streaming_witness :
    wUp.spawn (startCmd wUp st0 false false) =
      SpawnOutcome.completed 0 ["[Loading] SUCCESS", "Started!"]
    ∧ (ContainerManager.start wUp st0 false false false true).trace =
        [Event.ran (startCmd wUp st0 false false) none] :=
  ⟨rfl, (start_without_output_cb_skips_streaming wUp st0 false true 0
    ["[Loading] SUCCESS", "Started!"] rfl).2⟩

/-- C9: `stop` leaves the stop-requested flag set and no operation ever
clears it; once it is set, a foreground `start` delivers at most one
output line before its streaming loop breaks, while still waiting for
the process and returning the exit-code-based result. -/
theorem stop_requested_flag_invariant (w : World) (st : CMState) (t : Nat)
    (detached fR hcb hscb follow : Bool) (tail : Option Int) :
    (ContainerManager.stop w st t).state.stopRequested = true
    ∧ (ContainerManager.start w st detached fR hcb hscb).state = st
    ∧ (ContainerManager.logs w st follow tail).state = st
    ∧ (ContainerManager.status w st).state = st
    ∧ (ContainerManager.restart w st hcb).state.stopRequested = true
    ∧ (st.stopRequested = true →
        List.countP Event.isOutput
          (ContainerManager.start w st false fR hcb hscb).trace ≤ 1
        ∧ (ContainerManager.start w st false fR hcb hscb).ok =
            (match w.spawn (startCmd w st false fR) with
             | SpawnOutcome.completed rc _ => rc == 0
             | SpawnOutcome.raised _ => false)) := by
  refine ⟨by rw [stop_state_flag], start_state_eq w st detached fR hcb hscb,
    logs_state_eq w st follow tail, status_state_eq w st, ?_, ?_⟩
  · unfold ContainerManager.restart
    by_cases hok : (ContainerManager.stop w st 5).ok = true
    · simp only [hok, Bool.not_true, Bool.false_eq_true, if_false]
      rw [start_state_eq, stop_state_flag]
    · have hok' : (ContainerManager.stop w st 5).ok = false := by
        revert hok
        cases (ContainerManager.stop w st 5).ok <;> simp
      simp only [hok', Bool.not_false, if_true]
      rw [stop_state_flag]
  · intro hreq
    unfold ContainerManager.start
    rcases h : w.spawn (startCmd w st false fR) with ⟨rc, lines⟩ | m
    · refine ⟨?_, by simp [h]⟩
      simp only [h, Bool.false_eq_true, if_false, List.countP_cons, Event.isOutput, hreq]
      cases hcb with
      | false => simp
      | true =>
        simpa using streamLoop_stopRequested_output_le_one hscb false lines
    · refine ⟨?_, by simp [h]⟩
      cases hcb <;> simp [h, List.countP_cons, Event.isOutput]

/-- Witness for C9: on an instance whose stop flag is already set, a
healthy foreground start with both callbacks delivers at most one line. -/
theorem stop_requested_flag_invariant_witness :
    stR.stopRequested = true
    ∧ List.countP Event.isOutput
        (ContainerManager.start wUp stR false false true true).trace ≤ 1 :=
  ⟨rfl, ((stop_requested_flag_invariant wUp stR 5 false false true true false
    none).2.2.2.2.2 rfl).1⟩

/-- C2 (amended): a foreground start fires `onReady` at most once even
when several lines match the readiness markers; a detached start never
fires `onReady`, and delivers a line to `onOutputLine` only when the
launch itself raises, in which case exactly one synthetic error line is
delivered (and none when no callback is given). -/
theorem start_ready_at_most_once (w : World) (st : CMState) (fR hcb hscb : Bool) :
    List.countP Event.isReady (ContainerManager.start w st false fR hcb hscb).trace ≤ 1
    ∧ List.countP Event.isReady (ContainerManager.start w st true fR hcb hscb).trace = 0
    ∧ List.countP Event.isOutput (ContainerManager.start w st true fR hcb hscb).trace =
        (match w.spawn (startCmd w st true fR) with
         | SpawnOutcome.completed _ _ => 0
         | SpawnOutcome.raised _ => if hcb then 1 else 0) := by
  refine ⟨?_, ?_, ?_⟩
  · unfold ContainerManager.start
    rcases h : w.spawn (startCmd w st false fR) with ⟨rc, lines⟩ | m
    · simp only [h, Bool.false_eq_true, if_false, List.countP_cons, Event.isReady]
      cases hcb with
      | false => simp
      | true => simpa using streamLoop_ready_count_le_one hscb st.stopRequested false lines
    · cases hcb <;> simp [h, List.countP_cons, Event.isReady]
  · unfold ContainerManager.start
    rcases h : w.spawn (startCmd w st true fR) with ⟨rc, lines⟩ | m <;>
      cases hcb <;> simp [h, List.countP_cons, Event.isReady]
  · unfold ContainerManager.start
    rcases h : w.spawn (startCmd w st true fR) with ⟨rc, lines⟩ | m <;>
      cases hcb <;> simp [h, List.countP_cons, Event.isOutput]

/-- Counterexample to C2 as stated: on a host where the launch raises
(the runtime executable is absent), a detached start with an output
callback delivers exactly one line — the synthetic error message — to
`onOutputLine`, so a detached start is not callback-silent. -/
theorem start_detached_error_line_counterexample :
    List.countP Event.isOutput
      (ContainerManager.start wDead st0 true false true false).trace = 1 := by
  rfl

/-! ## Validator blocking characterizations -/

/-- The runtime check yields a blocking issue exactly when the runtime is
unavailable: not on the search path, or its `--version` run completes
with a non-zero exit code. -/
lemma check_runtime_blocking (w : World) (c : Config) :
    ((_check_runtime w c).any ValidationIssue.is_blocking = true) ↔
      (w.which c.runtime = false ∨ ∃ rc out err,
        w.runTimed [c.runtime, "--version"] 5 = TimedOutcome.completed rc out err
          ∧ rc ≠ 0) := by
  unfold _check_runtime
  by_cases hw : w.which c.runtime = true
  · rcases h : w.runTimed [c.runtime, "--version"] 5 with ⟨rc, out, err⟩ | _ | m
    · by_cases hrc : (rc != 0) = true
      · have hrc' : rc ≠ 0 := by simpa using hrc
        simp [hw, h, hrc, hrc', ValidationIssue.is_blocking]
      · have hrc' : rc = 0 := by simpa using hrc
        simp [hw, h, hrc, hrc', ValidationIssue.is_blocking]
    · simp [hw, h, ValidationIssue.is_blocking]
    · simp [hw, h, ValidationIssue.is_blocking]
  · have hw' : w.which c.runtime = false := by simpa using hw
    simp [hw', ValidationIssue.is_blocking]

/-- The GPU check yields a blocking issue exactly when the primary vendor
is selected and its primary device node is absent. -/
lemma check_gpu_blocking (w : World) (c : Config) :
    ((_check_gpu w c).any ValidationIssue.is_blocking = true) ↔
      (c.gpu = "nvidia" ∧ w.pathExists "/dev/nvidia0" = false) := by
  unfold _check_gpu
  by_cases hg : (c.gpu == "nvidia") = true
  · have hg' : c.gpu = "nvidia" := by simpa using hg
    by_cases h0 : w.pathExists "/dev/nvidia0" = true <;>
      by_cases hctl : w.pathExists "/dev/nvidiactl" = true <;>
      simp [hg, hg', h0, hctl, ValidationIssue.is_blocking]
  · have hg' : ¬(c.gpu = "nvidia") := by simpa using hg
    by_cases ha : (c.gpu == "amd") = true
    · by_cases hd : w.pathExists "/dev/dri" = true <;>
        simp [hg, ha, hd, hg', ValidationIssue.is_blocking]
    · simp [hg, ha, hg']

/-- The display check yields a blocking issue exactly when x11 is
selected and the `DISPLAY` environment variable is unset or empty. -/
lemma check_display_blocking (w : World) (c : Config) :
    ((_check_display w c).any ValidationIssue.is_blocking = true) ↔
      (c.display = "x11" ∧ optStrTruthy (w.getenv "DISPLAY") = false) := by
  unfold _check_display
  by_cases hx : (c.display == "x11") = true
  · have hx' : c.display = "x11" := by simpa using hx
    by_cases hd : optStrTruthy (w.getenv "DISPLAY") = true <;>
      by_cases hs : w.pathExists "/tmp/.X11-unix" = true <;>
      simp [hx, hx', hd, hs, ValidationIssue.is_blocking]
  · have hx' : ¬(c.display = "x11") := by simpa using hx
    by_cases hwl : (c.display == "wayland") = true
    · by_cases he : optStrTruthy (w.getenv "WAYLAND_DISPLAY") = true <;>
        simp [hx, hwl, he, hx', ValidationIssue.is_blocking]
    · simp [hx, hwl, hx']

/-- The audio check never yields a blocking issue. -/
lemma check_audio_not_blocking (w : World) (c : Config) :
    (_check_audio w c).any ValidationIssue.is_blocking = false := by
  unfold _check_audio
  by_cases hp : (c.audio == "pulseaudio") = true
  · by_cases h1 : w.pathExists ("/run/user/" ++ toString w.uid ++ "/pulse/native") = true <;>
      by_cases h2 : w.pathExists "/dev/snd" = true <;>
      simp [hp, h1, h2, ValidationIssue.is_blocking]
  · simp [hp]

/-- The xhost check never yields a blocking issue. -/
lemma check_xhost_not_blocking (w : World) (c : Config) :
    (_check_xhost w c).any ValidationIssue.is_blocking = false := by
  unfold _check_xhost
  by_cases hx : (c.display == "x11" && c.auto_xhost) = true
  · by_cases hh : w.which "xhost" = true
    · rcases h : w.runTimed ["xhost"] 2 with ⟨rc, out, err⟩ | _ | m
      · by_cases hc : (rc == 0 && !strContains out "SI:localuser:") = true <;>
          simp [hx, hh, h, hc, ValidationIssue.is_blocking]
      · simp [hx, hh, h]
      · simp [hx, hh, h]
    · simp [hx, hh, ValidationIssue.is_blocking]
  · simp [hx]

/-- The compose-file check yields a blocking issue exactly when some
compose file for the configuration is missing. -/
lemma check_compose_files_blocking (w : World) (c : Config) :
    ((_check_compose_files w c).any ValidationIssue.is_blocking = true) ↔
      (∃ f ∈ get_compose_files c,
        w.pathExists (joinPath w.composeDir f) = false) := by
  have hshape : _check_compose_files w c =
      ((get_compose_files c).filter
        (fun f => !(w.pathExists (joinPath w.composeDir f)))).map
        (fun f =>
          { message := "Compose file not found: " ++ joinPath w.composeDir f
            level := "error"
            fix_hint := some ("Ensure " ++ f ++ " exists in " ++ w.composeDir) }) := by
    unfold _check_compose_files validate_compose_files_exist
    by_cases h : (((get_compose_files c).filter
        (fun f => !(w.pathExists (joinPath w.composeDir f)))).length == 0) = true
    · have h' : (get_compose_files c).filter
          (fun f => !(w.pathExists (joinPath w.composeDir f))) = [] := by
        simpa [List.length_eq_zero] using h
      simp [h, h']
    · simp [h]
  rw [hshape]
  simp [List.any_map, Function.comp, ValidationIssue.is_blocking, List.any_eq_true,
    List.mem_filter]

/-- Bridge between a boolean check being quiet and the negation of its
Prop-level characterization. -/
lemma bool_eq_false_iff_not (b : Bool) (P : Prop) (h : b = true ↔ P) :
    (b = false) ↔ ¬ P := by
  rw [← h]
  cases b <;> simp

/-- C1: `validate_system` reports a valid configuration exactly when
none of the four blocking conditions holds — runtime unavailable, a
compose file missing, the nvidia device node missing while nvidia is
selected, or `DISPLAY` absent while x11 is selected — and equivalently
exactly when every collected issue is advisory, so a result with only
advisory issues is still valid. -/
theorem validate_system_valid_iff_no_blocker (w : World) (c : Config) :
    ((validate_system w c).1 = true ↔
      ¬ ((w.which c.runtime = false ∨ ∃ rc out err,
            w.runTimed [c.runtime, "--version"] 5 = TimedOutcome.completed rc out err
              ∧ rc ≠ 0)
        ∨ (∃ f ∈ get_compose_files c,
            w.pathExists (joinPath w.composeDir f) = false)
        ∨ (c.gpu = "nvidia" ∧ w.pathExists "/dev/nvidia0" = false)
        ∨ (c.display = "x11" ∧ optStrTruthy (w.getenv "DISPLAY") = false)))
    ∧ ((validate_system w c).1 = true ↔
        ∀ i ∈ (validate_system w c).2, i.is_blocking = false) := by
  constructor
  · unfold validate_system
    simp only [List.any_append, Bool.not_eq_true', Bool.or_eq_false_iff]
    rw [bool_eq_false_iff_not _ _ (check_runtime_blocking w c),
      bool_eq_false_iff_not _ _ (check_gpu_blocking w c),
      bool_eq_false_iff_not _ _ (check_display_blocking w c),
      bool_eq_false_iff_not _ _ (check_compose_files_blocking w c)]
    simp only [check_audio_not_blocking, check_xhost_not_blocking,
      eq_self_iff_true, and_true]
    constructor
    · rintro ⟨⟨⟨h1, h2⟩, h3⟩, h5⟩
      rintro (hP1 | hP5 | hP2 | hP3)
      · exact h1 hP1
      · exact h5 hP5
      · exact h2 hP2
      · exact h3 hP3
    · intro h
      exact ⟨⟨⟨fun hP1 => h (Or.inl hP1),
        fun hP2 => h (Or.inr (Or.inr (Or.inl hP2)))⟩,
        fun hP3 => h (Or.inr (Or.inr (Or.inr hP3)))⟩,
        fun hP5 => h (Or.inr (Or.inl hP5))⟩
  · unfold validate_system
    simp only [Bool.not_eq_true', List.any_eq_false, Bool.not_eq_true]

end TLauncher
